import Mathlib

/-!
Verification of the CFAVFin supervisor/routing core.

Shallow embedding of the Python sources:
  - src/graph/agent_graph.py : error detection, circuit breaker,
    context extraction and the supervisor node (v5.0).
  - src/api.py               : history pagination.
  - src/config.py            : circuit-breaker configuration.

Python strings are Lean `String`s, Python dicts with string keys are
insertion-ordered association lists, Python `None` is `Option.none`.
LLM invocations are abstracted by an oracle argument; every claim we
prove about LLM-free code paths is quantified over all oracles.
-/

set_option maxRecDepth 4000

namespace CFAVFin

/-! ### Messages (langchain_core.messages, as used by this repository)

`HumanMessage`/`AIMessage`/`SystemMessage` carry a text content; for
`AIMessage` the code only ever tests whether `tool_calls` is non-empty,
so that attribute is embedded as a `Bool`. -/

inductive Msg where
  | human (content : String)
  | ai (content : String) (has_tool_calls : Bool)
  | system (content : String)
deriving DecidableEq, Repr

def Msg.content : Msg → String
  | .human c => c
  | .ai c _ => c
  | .system c => c

def Msg.isHuman : Msg → Bool
  | .human _ => true
  | _ => false

/-! ### Python string primitives -/

/-- Python `needle in haystack` on lists of characters: `needle` occurs
contiguously in `haystack` (the empty needle always occurs). -/
def listContainsSeq (needle : List Char) : List Char → Bool
  | [] => needle.isEmpty
  | c :: rest => needle.isPrefixOf (c :: rest) || listContainsSeq needle rest

/-- Python `needle in haystack` for strings. -/
def pyIn (needle haystack : String) : Bool :=
  listContainsSeq needle.toList haystack.toList

/-- Python `str.lower` restricted to the characters this repository uses:
ASCII plus the Spanish accented letters appearing in the sources. -/
def pyLowerChar (c : Char) : Char :=
  if c = 'Á' then 'á' else if c = 'É' then 'é' else if c = 'Í' then 'í'
  else if c = 'Ó' then 'ó' else if c = 'Ú' then 'ú' else if c = 'Ñ' then 'ñ'
  else if c = 'Ü' then 'ü' else c.toLower

def toLowerPy (s : String) : String := String.mk (s.toList.map pyLowerChar)

/-- Python `str.upper` restricted likewise. -/
def pyUpperChar (c : Char) : Char :=
  if c = 'á' then 'Á' else if c = 'é' then 'É' else if c = 'í' then 'Í'
  else if c = 'ó' then 'Ó' else if c = 'ú' then 'Ú' else if c = 'ñ' then 'Ñ'
  else if c = 'ü' then 'Ü' else c.toUpper

def toUpperPy (s : String) : String := String.mk (s.toList.map pyUpperChar)

/-! ### Python dicts with string keys (insertion ordered) -/

abbrev ErrTypes := List (String × Nat)

/-- Python `d.get(k, 0)`. -/
def ErrTypes.get (d : ErrTypes) (k : String) : Nat :=
  match d.find? (fun p => p.1 = k) with
  | some p => p.2
  | none => 0

/-- Python `d[k] = v`: updates in place, new keys appended at the end. -/
def ErrTypes.set (d : ErrTypes) (k : String) (v : Nat) : ErrTypes :=
  if d.any (fun p => p.1 = k) then
    d.map (fun p => if p.1 = k then (k, v) else p)
  else d ++ [(k, v)]

def apostrophe : Char := Char.ofNat 39

/-- Python `repr` of an `error_types` dict, as interpolated by the
f-string in `_check_circuit_breaker_status`. -/
def errTypesRepr (d : ErrTypes) : String :=
  "\x7b" ++ String.intercalate ", "
    (d.map (fun p =>
      String.singleton apostrophe ++ p.1 ++ String.singleton apostrophe
        ++ ": " ++ toString p.2)) ++ "\x7d"

/-! ### src/config.py -/

def CIRCUIT_BREAKER_MAX_RETRIES : Nat := 2
def CIRCUIT_BREAKER_COOLDOWN : Nat := 10

/-! ### src/graph/agent_graph.py : error detection and circuit breaker -/

def legacy_error_keywords : List String :=
  ["error calculando", "problema técnico", "fallo herramienta"]

/-- Embeds `detect_error_type` (agent_graph.py lines 76-112); the
argument is the flattened text content of the `AIMessage`. -/
def detect_error_type (content : String) : String :=
  if pyIn "TAREA_COMPLETADA" (toUpperPy content) then "success"
  else if pyIn "ERROR_BLOQUEANTE" (toUpperPy content) then "tool_failure"
  else if pyIn "FALTAN_DATOS" (toUpperPy content) then "validation"
  else if legacy_error_keywords.any (fun kw => pyIn kw (toLowerPy content)) then
    "tool_failure"
  else "unknown"

/-- Embeds `should_open_circuit` (agent_graph.py lines 115-129). -/
def should_open_circuit (error_types : ErrTypes) (error_count : Nat) : Bool :=
  if error_types.get "tool_failure" ≥ 2 then true
  else if error_types.get "validation" ≥ 3 then true
  else if error_count ≥ CIRCUIT_BREAKER_MAX_RETRIES then true
  else false

/-! ### src/graph/agent_graph.py : context extraction (lines 226-330) -/

def refinamiento_keywords : List String :=
  ["ahora", "pero", "con", "cambia", "modifica", "ajusta",
   "en vez", "en lugar", "si fuera", "qué pasa si",
   "y si", "con una", "con un", "usando"]

def teoricas_keywords : List String :=
  ["qué es", "que es", "define", "explica",
   "cuál es", "cual es", "cómo se", "como se",
   "significado", "concepto", "diferencia entre",
   "para qué sirve", "por qué", "porque"]

/-- The backward scan of `extraer_query_con_contexto` step 1: index and
content of the most recent `HumanMessage`, if any. -/
def findLastUser : List Msg → Option (Nat × String)
  | [] => none
  | msg :: rest =>
    match findLastUser rest with
    | some (i, c) => some (i + 1, c)
    | none =>
      match msg with
      | Msg.human c => some (0, c)
      | _ => none

/-- Python `msg.content[:200] + "..." if len(msg.content) > 200 else msg.content`. -/
def truncate200 (c : String) : String :=
  if c.length > 200 then String.mk (c.toList.take 200) ++ "..." else c

/-- The backward context-collection loop of `extraer_query_con_contexto`
step 4, run over `(messages.take last_user_idx).reverse`.  `ctx` is the
accumulated `context_messages` list (Python `insert(0, _)` = prepend,
`context_messages[-1]` = `getLast?`). -/
def collectContext (categoria_actual : Option String) (window_size : Nat) :
    List Msg → Nat → List String → List String
  | [], _, ctx => ctx
  | Msg.human c :: rest, turn_count, ctx =>
    if categoria_actual = some "PRACTICA"
        && teoricas_keywords.any (fun kw => pyIn kw (toLowerPy c)) then
      collectContext categoria_actual window_size rest turn_count ctx
    else
      let ctx' := ("Usuario: " ++ c) :: ctx
      if turn_count + 1 ≥ window_size then ctx'
      else collectContext categoria_actual window_size rest (turn_count + 1) ctx'
  | Msg.ai c _ :: rest, turn_count, ctx =>
    let ctx' :=
      match ctx.getLast? with
      | some lastLine =>
        if lastLine.startsWith "Usuario:" then ("Asistente: " ++ truncate200 c) :: ctx
        else ctx
      | none => ctx
    collectContext categoria_actual window_size rest turn_count ctx'
  | Msg.system _ :: rest, turn_count, ctx =>
    collectContext categoria_actual window_size rest turn_count ctx

/-- The enriched-query f-string of `extraer_query_con_contexto` step 5. -/
def enrichedQuery (context_messages : List String) (last_user_msg : String) : String :=
  "CONTEXTO PREVIO:\n        " ++ String.intercalate "\n" context_messages
    ++ "\n\n        NUEVA CONSULTA:\n        " ++ last_user_msg

/-- Embeds `extraer_query_con_contexto` (agent_graph.py lines 226-330).
Returns `none` for the Python `return None` paths (no user message
found, or a falsy — empty — user content). -/
def extraer_query_con_contexto (messages : List Msg) (window_size : Nat)
    (categoria_actual : Option String) : Option String :=
  match findLastUser messages with
  | none => none
  | some (last_user_idx, last_user_msg) =>
    if last_user_msg = "" then none
    else
      let query_lower := toLowerPy last_user_msg
      let es_refinamiento := refinamiento_keywords.any (fun kw => pyIn kw query_lower)
      if !es_refinamiento then some last_user_msg
      else
        let context_messages :=
          collectContext categoria_actual window_size
            ((messages.take last_user_idx).reverse) 0 []
        if context_messages.isEmpty then some last_user_msg
        else some (enrichedQuery context_messages last_user_msg)

/-! ### src/graph/agent_graph.py : supervisor node (lines 136-197 and 334-492)

The two LLM invocations of `supervisor_node` (the structured
`DecisionSupervisor` call and the level-2 specialist call) are
abstracted by an oracle; `none` models a raised exception, which the
source catches with its deterministic fallbacks. -/

inductive Categoria where
  | TEORICA
  | PRACTICA
  | AYUDA
deriving DecidableEq, Repr

structure DecisionSupervisor where
  categoria : Categoria
  query_optimizada : String
  razonamiento : String

structure LLMOracle where
  decide : String → Option DecisionSupervisor
  nivel2 : String → Option String

/-- The state dict read by the supervisor (`AgentState`, lines 50-57;
`last_error_time` and the transient `next_node` are never read by it). -/
structure AgentState where
  messages : List Msg
  error_count : Nat
  error_types : ErrTypes
  circuit_open : Bool

/-- A partial state-update dict as returned by `supervisor_node`;
`none` / `[]` stand for keys absent from the returned dict. -/
structure SupervisorUpdate where
  messages : List Msg := []
  next_node : Option String := none
  error_count : Option Nat := none
  error_types : Option ErrTypes := none
  circuit_open : Option Bool := none
deriving DecidableEq, Repr

/-- The termination message built by `_check_circuit_breaker_status`
(lines 144-149), with the two f-string interpolations. -/
def circuit_breaker_error_msg (error_count : Nat) (error_types : ErrTypes) : String :=
  "🚨 **Sistema detenido por seguridad**\n\n"
    ++ "El agente ha detectado inconsistencias repetidas.\n"
    ++ "**Errores:** " ++ toString error_count
    ++ " | **Tipos:** " ++ errTypesRepr error_types ++ "\n\n"
    ++ "Intenta reformular tu pregunta o proporcionar todos los datos necesarios."

/-- Embeds `_check_circuit_breaker_status` (lines 136-155): `none` is
the Python `return None`. -/
def _check_circuit_breaker_status (state : AgentState) : Option SupervisorUpdate :=
  if state.circuit_open then
    some { messages :=
             [Msg.ai (circuit_breaker_error_msg state.error_count state.error_types) false],
           next_node := some "FINISH",
           circuit_open := some true }
  else none

/-- The tuple returned by `_analyze_last_message` (lines 158-179). -/
structure AnalyzeResult where
  possible_error_detected : Bool
  error_type : Option String
  error_count_delta : Nat
  error_types_update : ErrTypes
deriving DecidableEq, Repr

/-- Embeds `_analyze_last_message` (lines 158-179). -/
def _analyze_last_message (messages : List Msg) : AnalyzeResult :=
  match messages.getLast? with
  | some (Msg.ai c tc) =>
    if tc then ⟨false, none, 0, []⟩
    else
      let error_type := detect_error_type c
      if error_type = "success" then ⟨false, some error_type, 0, []⟩
      else if ["tool_failure", "validation", "capability"].contains error_type then
        ⟨true, some error_type, 1, [(error_type, 1)]⟩
      else ⟨false, some error_type, 0, []⟩
  | _ => ⟨false, none, 0, []⟩

/-- Python `max(error_types, key=error_types.get)`: first key with
maximal value in insertion order (strictly-greater replaces). -/
def dominantErrorKey : ErrTypes → String
  | [] => "unknown"
  | p :: rest =>
    (rest.foldl (fun best q => if q.2 > best.2 then q else best) p).1

/-- Embeds `_handle_circuit_breaker_activation` (lines 182-197). -/
def _handle_circuit_breaker_activation (error_types : ErrTypes) (error_count : Nat) :
    SupervisorUpdate :=
  let max_error_type := dominantErrorKey error_types
  let error_msg :=
    if max_error_type = "validation" then
      "⚠️ **Faltan Datos**: Por favor proporciona todos los parámetros requeridos."
    else if max_error_type = "tool_failure" then
      "🔧 **Error Técnico**: Las herramientas no están respondiendo correctamente."
    else
      "❌ **Procesamiento Detenido**: Demasiados reintentos (" ++ toString error_count ++ ")."
  { messages := [Msg.ai error_msg false],
    next_node := some "FINISH",
    circuit_open := some true }

/-- The supervisor branch for a turn whose most recent message is not a
fresh user message (agent_graph.py lines 352-362). -/
def superviseAgentReply (state : AgentState) : SupervisorUpdate :=
  let r := _analyze_last_message state.messages
  if r.possible_error_detected then
    let error_count := state.error_count + r.error_count_delta
    let error_types :=
      r.error_types_update.foldl
        (fun acc p => acc.set p.1 (acc.get p.1 + p.2)) state.error_types
    if should_open_circuit error_types error_count then
      let activation := _handle_circuit_breaker_activation error_types error_count
      { activation with error_count := some error_count, error_types := some error_types }
    else
      { next_node := some "FINISH",
        error_count := some error_count, error_types := some error_types }
  else
    { next_node := some "FINISH",
      error_count := some state.error_count, error_types := some state.error_types }

def agentes_validos : List String :=
  ["Agente_Renta_Fija", "Agente_Finanzas_Corp",
   "Agente_Equity", "Agente_Portafolio", "Agente_Derivados"]

/-- The keyword fallback of the level-2 specialist selection
(agent_graph.py lines 466-474), over the lowercased query. -/
def fallbackEspecialista (combined : String) : String :=
  if pyIn "bono" combined then "Agente_Renta_Fija"
  else if ["capm", "beta", "mediana", "promedio", "desviación"].any
      (fun x => pyIn x combined) then "Agente_Portafolio"
  else if pyIn "opcion" combined then "Agente_Derivados"
  else "Agente_Finanzas_Corp"

/-- The routing step on the structured decision (agent_graph.py lines
417-492): category dispatch plus level-2 specialist selection. -/
def dispatchCategoria (oracle : LLMOracle) (state : AgentState)
    (categoria : Categoria) (query_final query_con_contexto : String) :
    SupervisorUpdate :=
  match categoria with
  | Categoria.TEORICA =>
    { messages := [Msg.human query_final],
      next_node := some "Agente_RAG",
      error_count := some 0, error_types := some [] }
  | Categoria.AYUDA =>
    { messages := [Msg.human query_con_contexto],
      next_node := some "Agente_Ayuda",
      error_count := some 0, error_types := some [] }
  | Categoria.PRACTICA =>
    match oracle.nivel2 query_con_contexto with
    | some especialista_msg =>
      let next_node := especialista_msg.trim
      let next_node :=
        if agentes_validos.contains next_node then next_node
        else fallbackEspecialista (toLowerPy query_con_contexto)
      { messages := [Msg.human query_con_contexto],
        next_node := some next_node,
        error_count := some 0, error_types := some [] }
    | none =>
      { messages := [Msg.human query_con_contexto],
        next_node := some "Agente_Finanzas_Corp",
        error_count := some state.error_count,
        error_types := some state.error_types }

/-- The supervisor branch for a fresh user message (agent_graph.py
lines 364-492); `last_user_query_raw` is `messages[-1].content`. -/
def superviseFreshQuery (oracle : LLMOracle) (state : AgentState)
    (last_user_query_raw : String) : SupervisorUpdate :=
  let query_con_contexto :=
    match extraer_query_con_contexto state.messages 2 none with
    | some s => if s = "" then last_user_query_raw else s
    | none => last_user_query_raw
  match oracle.decide query_con_contexto with
  | some decision =>
    dispatchCategoria oracle state decision.categoria
      decision.query_optimizada query_con_contexto
  | none =>
    dispatchCategoria oracle state Categoria.PRACTICA
      query_con_contexto query_con_contexto

/-- Embeds `supervisor_node` (agent_graph.py lines 334-492). -/
def supervisor_node (oracle : LLMOracle) (state : AgentState) : SupervisorUpdate :=
  match _check_circuit_breaker_status state with
  | some cb_status => cb_status
  | none =>
    match state.messages.getLast? with
    | some (Msg.human content) => superviseFreshQuery oracle state content
    | _ => superviseAgentReply state

/-- An oracle whose calls all raise: exercises only the deterministic
fallback paths of the source. -/
def defaultOracle : LLMOracle :=
  ⟨fun _ => none, fun _ => none⟩

/-! ### src/api.py : history pagination (lines 42-124)

The guest-prefix and empty-persisted-state branches return an empty
page; the modelled part is the non-guest path over the raw message list
read from the persisted session state.  The `id` and `fecha` metadata
fields of each history item are not modelled (the claims do not touch
them). -/

structure HistEntry where
  de : String
  texto : String
deriving DecidableEq, Repr

structure HistoryResponse where
  messages : List HistEntry
  hasMore : Bool
  total : Nat
deriving DecidableEq, Repr

/-- The filter/collapse loop of `get_history` (api.py lines 79-106):
drops system/tool turns and empty assistant turns, and collapses a user
turn that immediately follows another surviving user turn. -/
def buildHistory (raw : List Msg) : List HistEntry :=
  raw.foldl
    (fun history msg =>
      match msg with
      | Msg.human c =>
        match history.getLast? with
        | some lastEntry =>
          if lastEntry.de = "usuario" then history
          else history ++ [⟨"usuario", c⟩]
        | none => history ++ [⟨"usuario", c⟩]
      | Msg.ai c _ =>
        if c = "" then history else history ++ [⟨"bot", c⟩]
      | Msg.system _ => history)
    []

/-- Embeds the pagination tail of `get_history` (api.py lines 108-120):
reverse to most-recent-first, slice `[offset : offset + limit]`, and
report `hasMore = offset + limit < total`. -/
def get_history (raw : List Msg) (limit offset : Nat) : HistoryResponse :=
  let history := (buildHistory raw).reverse
  let total_messages := history.length
  let paginated := (history.drop offset).take limit
  let has_more := decide (offset + limit < total_messages)
  ⟨paginated, has_more, total_messages⟩

/-! ### src/tests/test_financial_tools.py : the VAN (NPV) computation -/

/-- Modelled from the spec: the implementation `_calcular_van` lives in
`tools/financial_tools.py`, which is not under `src/` (only its test,
`src/tests/test_financial_tools.py`, is).  The spec describes the
computation as the cash flows discounted at `tasa_descuento` percent
over years 1..n against the initial outlay:
`NPV = -inversion_inicial + Σ flujos[t-1] / (1 + tasa/100)^t`. -/
def calcular_van (tasa_descuento inversion_inicial : ℚ) (flujos_caja : List ℚ) : ℚ :=
  -inversion_inicial +
    (flujos_caja.enum.map
      (fun p => p.2 / (1 + tasa_descuento / 100) ^ (p.1 + 1))).sum

/-! ## Shared helper lemmas -/

lemma string_ne_empty_of_data (s : String) (h : s.data ≠ []) : s ≠ "" := by
  intro hc
  subst hc
  exact h rfl

lemma append_ne_empty_of_left (a b : String) (h : a ≠ "") : a ++ b ≠ "" := by
  intro hc
  apply h
  have hd := congrArg String.data hc
  rw [String.data_append] at hd
  exact String.ext (by simpa using (List.append_eq_nil.mp hd).1)

lemma enrichedQuery_ne_empty (ctx : List String) (m : String) :
    enrichedQuery ctx m ≠ "" := by
  unfold enrichedQuery
  exact append_ne_empty_of_left _ _
    (append_ne_empty_of_left _ _
      (append_ne_empty_of_left _ _ (by decide)))

lemma findLastUser_cons (msg : Msg) (rest : List Msg) :
    findLastUser (msg :: rest) =
      match findLastUser rest with
      | some (i, c) => some (i + 1, c)
      | none =>
        match msg with
        | Msg.human c => some (0, c)
        | _ => none := rfl

lemma findLastUser_eq_none_of_no_human (messages : List Msg)
    (h : ∀ m ∈ messages, m.isHuman = false) : findLastUser messages = none := by
  induction messages with
  | nil => rfl
  | cons m rest ih =>
    have hm := h m (List.mem_cons_self _ _)
    have hrest := ih (fun x hx => h x (List.mem_cons_of_mem _ hx))
    rw [findLastUser_cons, hrest]
    cases m with
    | human c => simp [Msg.isHuman] at hm
    | ai c tc => rfl
    | system c => rfl

/-! ## Claim theorems -/

/-- C3 counterexample: the claim asserts
`should_open_circuit(\x7bvalidation: 2\x7d, 2)` is false, but on the code it is
true — the total error count 2 already reaches
`CIRCUIT_BREAKER_MAX_RETRIES = 2`. -/
theorem should_open_validation2_count2_true :
    should_open_circuit [("validation", 2)] 2 = true := by decide

/-- C3 (amended): the circuit-breaker predicate evaluates to true on
`(\x7btool_failure: 2\x7d, 2)`, true on `(\x7bvalidation: 2\x7d, 2)` (by the
total-count rule with the configured default max retries of 2), and
true on `(\x7bvalidation: 3\x7d, 3)`. -/
theorem circuit_breaker_truth_table :
    should_open_circuit [("tool_failure", 2)] 2 = true ∧
    should_open_circuit [("validation", 2)] 2 = true ∧
    should_open_circuit [("validation", 3)] 3 = true := by decide

/-- C5 counterexample: a text containing both the blocking-error token
and the missing-data token (and no success token) is classified
`tool_failure`, not `validation` — the blocking-error check has
priority, so the claim's "regardless of any other content" fails. -/
theorem faltan_datos_with_error_bloqueante_not_validation :
    detect_error_type "ERROR_BLOQUEANTE FALTAN_DATOS" = "tool_failure" ∧
    pyIn "FALTAN_DATOS" (toUpperPy "ERROR_BLOQUEANTE FALTAN_DATOS") = true ∧
    pyIn "TAREA_COMPLETADA" (toUpperPy "ERROR_BLOQUEANTE FALTAN_DATOS") = false ∧
    detect_error_type "ERROR_BLOQUEANTE FALTAN_DATOS" ≠ "validation" := by decide

/-- C5 (amended): for every text that contains the missing-data token
and contains neither the success token nor the blocking-error token,
`detect_error_type` returns `validation`. -/
theorem faltan_datos_yields_validation (s : String)
    (h1 : pyIn "FALTAN_DATOS" (toUpperPy s) = true)
    (h2 : pyIn "TAREA_COMPLETADA" (toUpperPy s) = false)
    (h3 : pyIn "ERROR_BLOQUEANTE" (toUpperPy s) = false) :
    detect_error_type s = "validation" := by
  unfold detect_error_type
  rw [h1, h2, h3]
  simp

/-- C5 witness: a concrete missing-data reply is classified `validation`. -/
theorem faltan_datos_yields_validation_witness :
    pyIn "FALTAN_DATOS" (toUpperPy "FALTAN_DATOS: falta la tasa") = true ∧
    pyIn "TAREA_COMPLETADA" (toUpperPy "FALTAN_DATOS: falta la tasa") = false ∧
    pyIn "ERROR_BLOQUEANTE" (toUpperPy "FALTAN_DATOS: falta la tasa") = false ∧
    detect_error_type "FALTAN_DATOS: falta la tasa" = "validation" :=
  ⟨by decide, by decide, by decide,
   faltan_datos_yields_validation "FALTAN_DATOS: falta la tasa"
     (by decide) (by decide) (by decide)⟩

/-- C10: `detect_error_type` only ever returns one of `success`,
`tool_failure`, `validation`, `unknown`, and never `capability`; hence
the `capability` case tested by `_analyze_last_message` cannot arise
from it. -/
theorem detect_error_type_range (s : String) :
    (detect_error_type s = "success" ∨ detect_error_type s = "tool_failure" ∨
     detect_error_type s = "validation" ∨ detect_error_type s = "unknown") ∧
    detect_error_type s ≠ "capability" := by
  unfold detect_error_type
  split_ifs <;> simp

/-- C6 counterexample: the NPV given by the claim's own formula,
`-100000 + 30000/1.1 + 40000/1.1^2 + 50000/1.1^3`, is not within 1 of
2892.37 — it is negative. -/
theorem van_not_near_2892 :
    ¬ |calcular_van 10 100000 [30000, 40000, 50000] - 2892.37| < 1 := by
  have h : calcular_van 10 100000 [30000, 40000, 50000] = -2800000 / 1331 := by
    norm_num [calcular_van, List.enum, List.enumFrom]
  rw [h, not_lt, le_abs]
  right
  norm_num

/-- C6 (amended): the NPV of an initial outlay of 100000 with cash
flows 30000, 40000, 50000 discounted at 10% over years 1 to 3 is
exactly -2800000/1331, approximately -2103.68 (within 1 of -2103.68). -/
theorem van_value_amended :
    calcular_van 10 100000 [30000, 40000, 50000] = -2800000 / 1331 ∧
    |calcular_van 10 100000 [30000, 40000, 50000] - (-2103.68)| < 1 := by
  have h : calcular_van 10 100000 [30000, 40000, 50000] = -2800000 / 1331 := by
    norm_num [calcular_van, List.enum, List.enumFrom]
  refine ⟨h, ?_⟩
  rw [h, abs_lt]
  constructor <;> norm_num

/-- C7 counterexample: a history whose most recent user turn has empty
text contains no refinement marker, yet the extractor returns the
failure value `none` rather than that turn's text verbatim. -/
theorem empty_user_turn_not_verbatim :
    extraer_query_con_contexto [Msg.human ""] 2 none = none ∧
    extraer_query_con_contexto [Msg.human ""] 2 none ≠ some "" ∧
    refinamiento_keywords.any (fun kw => pyIn kw (toLowerPy "")) = false := by
  refine ⟨rfl, ?_, by decide⟩
  intro hc
  cases hc

/-- C7 (amended): for every history whose most recent user turn is
non-empty and contains no refinement marker, the extractor returns that
turn's text verbatim; the extractor is a pure function, so re-running
it on the same history yields the identical result. -/
theorem non_refinement_query_verbatim (messages : List Msg) (i : Nat) (c : String)
    (hfind : findLastUser messages = some (i, c))
    (hne : c ≠ "")
    (hmark : refinamiento_keywords.any (fun kw => pyIn kw (toLowerPy c)) = false) :
    extraer_query_con_contexto messages 2 none = some c ∧
    extraer_query_con_contexto messages 2 none
      = extraer_query_con_contexto messages 2 none := by
  refine ⟨?_, rfl⟩
  unfold extraer_query_con_contexto
  rw [hfind]
  simp [hne, hmark]

/-- C7 witness: on the single-turn history "hola" the extractor returns
"hola" verbatim. -/
theorem non_refinement_query_verbatim_witness :
    findLastUser [Msg.human "hola"] = some (0, "hola") ∧
    refinamiento_keywords.any (fun kw => pyIn kw (toLowerPy "hola")) = false ∧
    extraer_query_con_contexto [Msg.human "hola"] 2 none = some "hola" :=
  ⟨by decide, by decide,
   (non_refinement_query_verbatim [Msg.human "hola"] 0 "hola"
     (by decide) (by decide) (by decide)).1⟩

/-- C8 counterexample: a history that does contain a user turn ("hola")
but whose most recent user turn has empty text makes the extractor
return the failure value instead of a non-empty string. -/
theorem history_with_user_turn_extractor_fails :
    ([Msg.human "hola", Msg.human ""].any Msg.isHuman) = true ∧
    extraer_query_con_contexto [Msg.human "hola", Msg.human ""] 2 none = none := by
  exact ⟨by decide, rfl⟩

/-- C8 (amended): whenever the most recent user turn of the history has
non-empty text the extractor returns a non-empty string, and whenever
the history contains no user turn at all it returns the failure value
`none`; additionally the failure value is returned when the most recent
user turn is empty. -/
theorem extractor_nonempty_or_fails :
    (∀ (messages : List Msg) (i : Nat) (c : String),
        findLastUser messages = some (i, c) → c ≠ "" →
        ∃ s, extraer_query_con_contexto messages 2 none = some s ∧ s ≠ "") ∧
    (∀ messages : List Msg, (∀ m ∈ messages, m.isHuman = false) →
        extraer_query_con_contexto messages 2 none = none) := by
  constructor
  · intro messages i c hfind hne
    unfold extraer_query_con_contexto
    rw [hfind]
    dsimp only
    rw [if_neg hne]
    split_ifs with h1 h2
    · exact ⟨c, rfl, hne⟩
    · exact ⟨c, rfl, hne⟩
    · exact ⟨_, rfl, enrichedQuery_ne_empty _ _⟩
  · intro messages h
    unfold extraer_query_con_contexto
    rw [findLastUser_eq_none_of_no_human messages h]

/-- C8 witness: a refinement-marked turn yields a non-empty string, and
a history with no user turn yields the failure value. -/
theorem extractor_nonempty_or_fails_witness :
    (∃ s, extraer_query_con_contexto [Msg.human "pero con tasa 12"] 2 none
        = some s ∧ s ≠ "") ∧
    extraer_query_con_contexto [Msg.ai "hola" false] 2 none = none :=
  ⟨extractor_nonempty_or_fails.1 [Msg.human "pero con tasa 12"] 0 "pero con tasa 12"
     (by decide) (by decide),
   extractor_nonempty_or_fails.2 [Msg.ai "hola" false] (by decide)⟩

lemma circuit_breaker_error_msg_ne_empty (ec : Nat) (et : ErrTypes) :
    circuit_breaker_error_msg ec et ≠ "" := by
  unfold circuit_breaker_error_msg
  apply append_ne_empty_of_left
  apply append_ne_empty_of_left
  apply append_ne_empty_of_left
  apply append_ne_empty_of_left
  apply append_ne_empty_of_left
  apply append_ne_empty_of_left
  decide

/-- C1: whenever `circuit_open` is true in the session state, the
supervisor node returns `FINISH` together with a single non-empty
termination message and `circuit_open` still true — for every message
history and every LLM oracle — and its `next_node` is never the
retrieval, help, or any specialist node. -/
theorem circuit_open_forces_finish (oracle : LLMOracle) (state : AgentState)
    (h : state.circuit_open = true) :
    (supervisor_node oracle state).next_node = some "FINISH" ∧
    (supervisor_node oracle state).circuit_open = some true ∧
    (∃ m, (supervisor_node oracle state).messages = [m] ∧ m.content ≠ "") ∧
    ∀ dest ∈ "Agente_RAG" :: "Agente_Ayuda" :: agentes_validos,
      (supervisor_node oracle state).next_node ≠ some dest := by
  have hs : supervisor_node oracle state =
      { messages :=
          [Msg.ai (circuit_breaker_error_msg state.error_count state.error_types) false],
        next_node := some "FINISH", circuit_open := some true } := by
    unfold supervisor_node _check_circuit_breaker_status
    rw [h]
    rfl
  rw [hs]
  refine ⟨rfl, rfl, ⟨_, rfl, circuit_breaker_error_msg_ne_empty _ _⟩, ?_⟩
  intro dest hdest heq
  simp only [Option.some.injEq] at heq
  subst heq
  revert hdest
  decide

/-- C1 witness: a concrete latched state (the one from
`test_supervisor_node_circuit_breaker_activated`) terminates. -/
theorem circuit_open_forces_finish_witness :
    ({ messages := [Msg.human "Test query"], error_count := 5,
       error_types := [("validation", 3)], circuit_open := true } : AgentState).circuit_open
      = true ∧
    (supervisor_node defaultOracle
      { messages := [Msg.human "Test query"], error_count := 5,
        error_types := [("validation", 3)], circuit_open := true }).next_node
      = some "FINISH" ∧
    (supervisor_node defaultOracle
      { messages := [Msg.human "Test query"], error_count := 5,
        error_types := [("validation", 3)], circuit_open := true }).circuit_open
      = some true :=
  ⟨rfl,
   (circuit_open_forces_finish defaultOracle
     { messages := [Msg.human "Test query"], error_count := 5,
       error_types := [("validation", 3)], circuit_open := true } rfl).1,
   (circuit_open_forces_finish defaultOracle
     { messages := [Msg.human "Test query"], error_count := 5,
       error_types := [("validation", 3)], circuit_open := true } rfl).2.1⟩

/-- C2: on the state of `test_supervisor_handle_transfer_signal` —
circuit closed, last message an assistant reply carrying
`TRANSFERIR_A_RAG` — the supervisor node returns `FINISH`, not
`Agente_RAG`, whatever the LLM oracle does: `detect_error_type` knows
no transfer token, so the assistant-reply branch cannot route
anywhere.  This contradicts the claim, the repository's own test, and
the routing rules stated in `financial_agents.py` lines 268-271. -/
theorem transfer_signal_reply_yields_finish (oracle : LLMOracle) :
    (supervisor_node oracle
      { messages := [Msg.human "¿Qué es el WACC?",
                     Msg.ai "Esta es una consulta teórica. TRANSFERIR_A_RAG" false],
        error_count := 0, error_types := [], circuit_open := false }).next_node
      = some "FINISH" ∧
    (supervisor_node oracle
      { messages := [Msg.human "¿Qué es el WACC?",
                     Msg.ai "Esta es una consulta teórica. TRANSFERIR_A_RAG" false],
        error_count := 0, error_types := [], circuit_open := false }).next_node
      ≠ some "Agente_RAG" := by
  refine ⟨rfl, ?_⟩
  intro hc
  rw [show (supervisor_node oracle
      { messages := [Msg.human "¿Qué es el WACC?",
                     Msg.ai "Esta es una consulta teórica. TRANSFERIR_A_RAG" false],
        error_count := 0, error_types := [], circuit_open := false }).next_node
      = some "FINISH" from rfl] at hc
  exact absurd (Option.some.inj hc) (by decide)

/-- C4 counterexample: a success reply (`TAREA_COMPLETADA`) arriving in
a state with `error_count = 1` and one recorded validation error makes
the supervisor return `FINISH` with the counters unchanged — not reset
to 0 and the empty mapping as the claim requires. -/
theorem success_reply_keeps_error_count :
    (supervisor_node defaultOracle
      { messages := [Msg.human "Calcula VAN",
                     Msg.ai "El VAN es 2892. TAREA_COMPLETADA" false],
        error_count := 1, error_types := [("validation", 1)],
        circuit_open := false }).next_node = some "FINISH" ∧
    (supervisor_node defaultOracle
      { messages := [Msg.human "Calcula VAN",
                     Msg.ai "El VAN es 2892. TAREA_COMPLETADA" false],
        error_count := 1, error_types := [("validation", 1)],
        circuit_open := false }).error_count = some 1 ∧
    (supervisor_node defaultOracle
      { messages := [Msg.human "Calcula VAN",
                     Msg.ai "El VAN es 2892. TAREA_COMPLETADA" false],
        error_count := 1, error_types := [("validation", 1)],
        circuit_open := false }).error_count ≠ some 0 ∧
    (supervisor_node defaultOracle
      { messages := [Msg.human "Calcula VAN",
                     Msg.ai "El VAN es 2892. TAREA_COMPLETADA" false],
        error_count := 1, error_types := [("validation", 1)],
        circuit_open := false }).error_types ≠ some [] := by decide

/-- C4 (amended): for every session state with the circuit closed whose
last message is an assistant reply (without tool calls) classified as
success, the supervisor returns `FINISH` with `error_count` and
`error_types` passed through unchanged (in particular they are not
incremented; they are reset to 0 only when a new user query is
dispatched). -/
theorem success_reply_finishes_counters_unchanged (oracle : LLMOracle)
    (state : AgentState) (c : String)
    (hcb : state.circuit_open = false)
    (hlast : state.messages.getLast? = some (Msg.ai c false))
    (hsucc : detect_error_type c = "success") :
    supervisor_node oracle state =
      { messages := [], next_node := some "FINISH",
        error_count := some state.error_count,
        error_types := some state.error_types,
        circuit_open := none } := by
  have hcheck : _check_circuit_breaker_status state = none := by
    unfold _check_circuit_breaker_status
    rw [hcb]
    rfl
  have hana : _analyze_last_message state.messages =
      ⟨false, some "success", 0, []⟩ := by
    unfold _analyze_last_message
    rw [hlast]
    dsimp only
    rw [hsucc]
    rfl
  unfold supervisor_node
  rw [hcheck]
  dsimp only
  rw [hlast]
  dsimp only
  unfold superviseAgentReply
  rw [hana]
  rfl

/-- C4 witness: the success reply of
`test_supervisor_node_handles_tarea_completada` terminates with the
(zero) counters passed through. -/
theorem success_reply_finishes_counters_unchanged_witness :
    detect_error_type "El VAN es 2892. TAREA_COMPLETADA" = "success" ∧
    supervisor_node defaultOracle
      { messages := [Msg.human "Calcula VAN",
                     Msg.ai "El VAN es 2892. TAREA_COMPLETADA" false],
        error_count := 0, error_types := [], circuit_open := false } =
      { messages := [], next_node := some "FINISH",
        error_count := some 0, error_types := some [], circuit_open := none } :=
  ⟨by decide,
   success_reply_finishes_counters_unchanged defaultOracle
     { messages := [Msg.human "Calcula VAN",
                    Msg.ai "El VAN es 2892. TAREA_COMPLETADA" false],
       error_count := 0, error_types := [], circuit_open := false }
     "El VAN es 2892. TAREA_COMPLETADA" rfl rfl (by decide)⟩

/-- C9: for every raw thread whose filtered history holds exactly 120
eligible messages, the history query with `limit = 50, offset = 0`
returns 50 items with `hasMore = true`, and with `offset = 100` it
returns the remaining 20 items with `hasMore = false`. -/
theorem history_pagination_120 (raw : List Msg)
    (h : (buildHistory raw).length = 120) :
    (get_history raw 50 0).messages.length = 50 ∧
    (get_history raw 50 0).hasMore = true ∧
    (get_history raw 50 100).messages.length = 20 ∧
    (get_history raw 50 100).hasMore = false := by
  unfold get_history
  simp only [List.length_take, List.length_drop, List.length_reverse, h]
  refine ⟨rfl, by decide, rfl, by decide⟩

/-- C9 witness: a thread of 60 alternating user/assistant pairs (120
eligible messages) paginates as claimed. -/
theorem history_pagination_120_witness :
    (buildHistory ((List.replicate 60 [Msg.human "q", Msg.ai "r" false]).flatten)).length
      = 120 ∧
    (get_history ((List.replicate 60 [Msg.human "q", Msg.ai "r" false]).flatten) 50 0).messages.length
      = 50 ∧
    (get_history ((List.replicate 60 [Msg.human "q", Msg.ai "r" false]).flatten) 50 100).messages.length
      = 20 ∧
    (get_history ((List.replicate 60 [Msg.human "q", Msg.ai "r" false]).flatten) 50 100).hasMore
      = false :=
  ⟨by decide,
   (history_pagination_120 _ (by decide)).1,
   (history_pagination_120 _ (by decide)).2.2.1,
   (history_pagination_120 _ (by decide)).2.2.2⟩

end CFAVFin
